import Mathlib

/-
Verification development for the Object-Detection backend
(backend/app: main.py, schemas.py, gemini_service.py, yolo_detector.py,
database.py).

Python floats are modelled as rationals; the round(x, n) builtin and the
fixed-point f-string format specifiers are modelled as ideal decimal
round-half-to-even on those rationals.  Fallible code returns Except;
real-time measurements (time.time() differences) enter the model as
explicit rational parameters.
-/

namespace ObjDet

/-- Model of schemas.BoundingBox: four float coordinates. -/
structure BoundingBox where
  x1 : ℚ
  y1 : ℚ
  x2 : ℚ
  y2 : ℚ
deriving DecidableEq

/-- Model of schemas.Detection: class label, confidence, box. -/
structure Detection where
  class_name : String
  confidence : ℚ
  bounding_box : BoundingBox
deriving DecidableEq

/-- Round a rational to the nearest integer, ties to even
(the rounding mode of the Python round builtin). -/
def rne (q : ℚ) : ℤ :=
  if q - ⌊q⌋ < 1 / 2 then ⌊q⌋
  else if 1 / 2 < q - ⌊q⌋ then ⌊q⌋ + 1
  else if ⌊q⌋ % 2 = 0 then ⌊q⌋ else ⌊q⌋ + 1

/-- Model of the Python round(x, n) builtin on the rational model of
floats: round to n decimal places, ties to even. -/
def pyRound (q : ℚ) (n : ℕ) : ℚ :=
  (rne (q * 10 ^ n) : ℚ) / 10 ^ n

/-- Pad a string with leading zero characters up to length n. -/
def padZeros (s : String) (n : ℕ) : String :=
  String.mk (List.replicate (n - s.length) (Char.ofNat 48)) ++ s

/-- Model of the Python fixed-point format specifier (for example
x:.3f): the value rounded half-to-even to n decimal places, rendered
with a sign, an integer part, a dot and exactly n fractional digits. -/
def formatFixed (q : ℚ) (n : ℕ) : String :=
  let k := rne (q * 10 ^ n)
  let sign := if q < 0 then "-" else ""
  let m := k.natAbs
  if n = 0 then sign ++ toString (m / 10 ^ n)
  else sign ++ toString (m / 10 ^ n) ++ "." ++ padZeros (toString (m % 10 ^ n)) n

/-- One step of GeminiService._count_by_class: the Python dict update
counts[name] = counts.get(name, 0) + 1, on an insertion-ordered
association list model of the dict. -/
def bumpClass : List (String × ℕ) → String → List (String × ℕ)
  | [], c => [(c, 1)]
  | (k, v) :: rest, c =>
      if k = c then (k, v + 1) :: rest else (k, v) :: bumpClass rest c

/-- Model of GeminiService._count_by_class: count detections by class
name, dict modelled as an insertion-ordered association list. -/
def countByClass (detections : List Detection) : List (String × ℕ) :=
  detections.foldl (fun acc d => bumpClass acc d.class_name) []

/-- Lexicographic comparison of character lists by code point: the
order Python uses on strings. -/
def charListLeb : List Char → List Char → Bool
  | [], _ => true
  | _ :: _, [] => false
  | c :: cs, d :: ds =>
      if c.toNat < d.toNat then true
      else if d.toNat < c.toNat then false
      else charListLeb cs ds

/-- Python string comparison a less-or-equal b. -/
def strLeb (a b : String) : Bool := charListLeb a.data b.data

/-- Ordering used by the Python sorted(class_counts.items()) call:
lexicographic on the pairs, which on an association list with distinct
keys is ordering by key. -/
def keyLe (a b : String × ℕ) : Prop := strLeb a.1 b.1 = true

instance : DecidableRel keyLe := fun a b =>
  inferInstanceAs (Decidable (strLeb a.1 b.1 = true))

/-- Model of sorted(class_counts.items()): the per-class counts in
alphabetical order of class name. -/
def sortPairs (l : List (String × ℕ)) : List (String × ℕ) :=
  List.insertionSort keyLe l

/-- The common body of a per-class count line: "cls: count". -/
def countLineBody (p : String × ℕ) : String :=
  p.1 ++ ": " ++ toString p.2

/-- One breakdown line of _create_system_instruction. -/
def classCountLine (p : String × ℕ) : String :=
  "- " ++ countLineBody p

/-- One breakdown line of _create_fallback_response.  The prefix is the
literal three-character sequence found in the source (a mojibake bullet),
followed by a space. -/
def fallbackCountLine (p : String × ℕ) : String :=
  "â€¢ " ++ countLineBody p

/-- The per-class breakdown lines of the context summary. -/
def summaryLines (detections : List Detection) : List String :=
  (sortPairs (countByClass detections)).map classCountLine

/-- The per-class breakdown lines of the fallback response. -/
def fallbackSummaryLines (detections : List Detection) : List String :=
  (sortPairs (countByClass detections)).map fallbackCountLine

/-- Model of GeminiService._format_detection: one numbered listing line
with confidence to 3 decimals and coordinates to 1 decimal. -/
def formatDetection (index : ℕ) (d : Detection) : String :=
  toString index ++ ". " ++ d.class_name ++
    " (confidence: " ++ formatFixed d.confidence 3 ++
    ", location: x1=" ++ formatFixed d.bounding_box.x1 1 ++
    ", y1=" ++ formatFixed d.bounding_box.y1 1 ++
    ", x2=" ++ formatFixed d.bounding_box.x2 1 ++
    ", y2=" ++ formatFixed d.bounding_box.y2 1 ++ ")"

/-- The parts list built by _create_system_instruction for a non-empty
detection list. -/
def instructionParts (detections : List Detection) : List String :=
  ["Detection Results:",
   "Total objects detected: " ++ toString detections.length ++ "\n",
   "Object Summary:"]
  ++ summaryLines detections
  ++ ["\nDetailed Detection Data:"]
  ++ detections.enum.map (fun p => formatDetection (p.1 + 1) p.2)

/-- Model of GeminiService._create_system_instruction. -/
def createSystemInstruction (detections : List Detection) : String :=
  if detections.isEmpty then "No objects were detected in the image."
  else String.intercalate "\n" (instructionParts detections)

/-- Model of GeminiService._build_prompt. -/
def buildPrompt (system_instruction : String) (question : String) : String :=
  "You are an AI assistant helping users understand object detection results.\n\n"
  ++ system_instruction
  ++ "\n\nUser Question: " ++ question
  ++ "\n\nPlease provide a clear, concise, and accurate answer based on the detection data."

/-- Model of GeminiService._create_fallback_response.  The error
argument is accepted, as in the source, but does not influence the
returned string. -/
def createFallbackResponse (detections : List Detection) (_error : String) : String :=
  if detections.isEmpty then "No objects detected and AI service unavailable."
  else
    "AI service temporarily unavailable. Detected "
    ++ toString detections.length ++ " objects:\n"
    ++ String.intercalate "\n" (fallbackSummaryLines detections)

/-- Model of GeminiService.answer_question.  The external
model.generate_content call is a parameter gen from the prompt to an
Except (error on raise); the elapsed-time measurement is the parameter
elapsed.  The image_base64 argument is accepted and, as in the source,
unused.  The Except result of the whole call shows whether the method
itself raises. -/
def answerQuestion (question : String) (detections : List Detection)
    (_image_base64 : Option String) (gen : String → Except String String)
    (elapsed : ℚ) : Except String (String × ℚ) :=
  match gen (buildPrompt (createSystemInstruction detections) question) with
  | Except.ok text => Except.ok (text, elapsed)
  | Except.error e => Except.ok (createFallbackResponse detections e, elapsed)

/-- A raw box as produced by the external YOLO model inside one result:
four float coordinates, a confidence and a class id. -/
structure RawBox where
  x1 : ℚ
  y1 : ℚ
  x2 : ℚ
  y2 : ℚ
  conf : ℚ
  cls : ℕ
deriving DecidableEq

/-- The per-box body of YOLODetector._extract_detections: class lookup
in model.names and the rounding of confidence (3 decimals) and of the
four coordinates (2 decimals). -/
def extractOne (names : ℕ → String) (b : RawBox) : Detection :=
  { class_name := names b.cls
    confidence := pyRound b.conf 3
    bounding_box :=
      { x1 := pyRound b.x1 2
        y1 := pyRound b.y1 2
        x2 := pyRound b.x2 2
        y2 := pyRound b.y2 2 } }

/-- Model of YOLODetector._extract_detections: the nested loop over
results and their boxes, appending one Detection per raw box. -/
def extract_detections (names : ℕ → String) (results : List (List RawBox)) :
    List Detection :=
  results.foldl (fun acc r => acc ++ r.map (extractOne names)) []

/-- Model of schemas.DetectionResponse. -/
structure DetectionResponse where
  annotated_image : String
  detections : List Detection
  processing_time : ℚ
deriving DecidableEq

/-- Model of schemas.AnswerResponse. -/
structure AnswerResponse where
  answer : String
  processing_time : ℚ
deriving DecidableEq

/-- Model of schemas.QuestionRequest. -/
structure QuestionRequest where
  question : String
  detections : List Detection
  image_base64 : Option String
deriving DecidableEq

/-- Model of the Python str.startswith test: does the string s begin
with the string p. -/
def charListBegins : List Char → List Char → Bool
  | _, [] => true
  | [], _ :: _ => false
  | c :: cs, d :: ds => c == d && charListBegins cs ds

/-- Python s.startswith(p) on the character-list representation. -/
def strStartsWith (s p : String) : Bool := charListBegins s.data p.data

/-- Side effects of the detect handler that the content-type guard must
precede: reading the uploaded file and running the detector. -/
inductive DetectEvent where
  | readFile
  | runDetector
deriving DecidableEq

/-- Model of the detect_objects handler of main.py.  The declared
content type is a string; the uploaded bytes are a list; the detector
(get_detector().detect_objects) is a parameter returning either the
annotated image, the detection list and the raw elapsed seconds, or an
error (a raise).  The handler result is paired with the trace of side
effects actually performed, in order. -/
def detect_objects (content_type : String) (file_bytes : List ℕ)
    (detector : List ℕ → Except String (String × List Detection × ℚ)) :
    Except (ℕ × String) DetectionResponse × List DetectEvent :=
  if strStartsWith content_type "image/" = false then
    (Except.error (400, "File must be an image"), [])
  else
    match detector file_bytes with
    | Except.ok (annotated, detections, ptime) =>
        (Except.ok
          { annotated_image := annotated
            detections := detections
            processing_time := pyRound ptime 3 },
         [DetectEvent.readFile, DetectEvent.runDetector])
    | Except.error e =>
        (Except.error (500, "Error processing image: " ++ e),
         [DetectEvent.readFile, DetectEvent.runDetector])

/-- Model of the ask_question handler of main.py: delegate to
answerQuestion and round the returned elapsed seconds to 3 decimals; a
raise inside the adapter would become a 500. -/
def ask_question (request : QuestionRequest)
    (gen : String → Except String String) (elapsed : ℚ) :
    Except (ℕ × String) AnswerResponse :=
  match answerQuestion request.question request.detections
      request.image_base64 gen elapsed with
  | Except.ok (answer, ptime) =>
      Except.ok { answer := answer, processing_time := pyRound ptime 3 }
  | Except.error e => Except.error (500, "Error processing question: " ++ e)

/-- A stored user record (models.User): id, username, email, password
hash. -/
structure StoredUser where
  id : ℕ
  username : String
  email : String
  hashed_password : String
deriving DecidableEq

/-- Model of schemas.UserCreate. -/
structure UserCreate where
  username : String
  email : String
  password : String
deriving DecidableEq

/-- Modelled from the spec: auth.get_user_by_username (auth.py is not in
the sources); per the spec, findByUsername returns the stored user with
that username, or none. -/
def get_user_by_username (db : List StoredUser) (username : String) :
    Option StoredUser :=
  db.find? (fun u => u.username == username)

/-- Modelled from the spec: auth.get_user_by_email (auth.py is not in
the sources); per the spec, findByEmail returns the stored user with
that email, or none. -/
def get_user_by_email (db : List StoredUser) (email : String) :
    Option StoredUser :=
  db.find? (fun u => u.email == email)

/-- Outcome of the signup handler: an HTTP error or a created record. -/
inductive SignupResult where
  | httpError (status_code : ℕ) (detail : String)
  | created (user : StoredUser)
deriving DecidableEq

/-- Model of the signup handler of main.py: check username, then email,
then hash the password and insert.  The password hasher
(auth.get_password_hash, not in the sources) is a parameter; the store
is a list of records and next_id models the id the store assigns. -/
def signup (hash : String → String) (db : List StoredUser) (next_id : ℕ)
    (user : UserCreate) : SignupResult × List StoredUser :=
  match get_user_by_username db user.username with
  | some _ => (SignupResult.httpError 400 "Username already registered", db)
  | none =>
    match get_user_by_email db user.email with
    | some _ => (SignupResult.httpError 400 "Email already registered", db)
    | none =>
      let u : StoredUser :=
        { id := next_id
          username := user.username
          email := user.email
          hashed_password := hash user.password }
      (SignupResult.created u, db ++ [u])

/-- State of a lazily initialised module-level singleton (the _detector
and _service globals): the cached instance, if any, identified by its
construction index, and the number of constructor runs so far. -/
structure LazyState where
  cache : Option ℕ
  constructed : ℕ
deriving DecidableEq

/-- The state before any call: global is None, nothing constructed. -/
def lazyInit : LazyState := { cache := none, constructed := 0 }

/-- Model of get_detector of yolo_detector.py: if the global is None,
construct a YOLODetector (a fresh instance, identified by the current
construction index) and cache it; return the cached instance. -/
def get_detector (s : LazyState) : ℕ × LazyState :=
  match s.cache with
  | some d => (d, s)
  | none => (s.constructed, { cache := some s.constructed, constructed := s.constructed + 1 })

/-- Model of get_gemini_service of gemini_service.py: same lazy
check-or-create pattern on the _service global. -/
def get_gemini_service (s : LazyState) : ℕ × LazyState :=
  match s.cache with
  | some d => (d, s)
  | none => (s.constructed, { cache := some s.constructed, constructed := s.constructed + 1 })

/-- Run n successive calls of a lazy-singleton accessor, collecting the
returned instances. -/
def runCalls (step : LazyState → ℕ × LazyState) :
    ℕ → LazyState → List ℕ × LazyState
  | 0, s => ([], s)
  | n + 1, s =>
      let r := step s
      let rest := runCalls step n r.2
      (r.1 :: rest.1, rest.2)

/-- Keys of an association list of per-class counts. -/
def keysOf (l : List (String × ℕ)) : List String := l.map Prod.fst

/-- Sum of the counts of an association list of per-class counts. -/
def sumSnd (l : List (String × ℕ)) : ℕ := (l.map Prod.snd).sum

/-- Concrete detection used to instantiate general theorems. -/
def exCat : Detection :=
  { class_name := "cat", confidence := 9 / 10
    bounding_box := { x1 := 10, y1 := 20, x2 := 110, y2 := 220 } }

/-- Concrete failing external language-model call. -/
def wGen : String → Except String String := fun _ => Except.error "boom"

/-- Concrete stored user. -/
def wAlice : StoredUser :=
  { id := 1, username := "alice", email := "a@x.com", hashed_password := "h" }

/-- Concrete user store holding one record. -/
def wDb : List StoredUser := [wAlice]

/-- Signup payload reusing the stored username. -/
def wUcUser : UserCreate :=
  { username := "alice", email := "b@y.com", password := "secret1" }

/-- Signup payload reusing both the stored username and email. -/
def wUcBoth : UserCreate :=
  { username := "alice", email := "a@x.com", password := "secret1" }

/-- Concrete password hasher stand-in. -/
def wHash : String → String := fun s => s

/-- Concrete successful detector call. -/
def wDetectorOk : List ℕ → Except String (String × List Detection × ℚ) :=
  fun _ => Except.ok ("annotated", [exCat], 1 / 2)

/-- Concrete raw box from the external model. -/
def wBox : RawBox :=
  { x1 := 100 / 3, y1 := 2, x2 := 50, y2 := 60, conf := 9 / 10, cls := 0 }

/-- Concrete class-name table of the external model. -/
def wNames : ℕ → String := fun _ => "cat"

/-- The detection the extraction produces from wBox. -/
def wExtracted : Detection := extractOne wNames wBox

/-- Concrete question request. -/
def wReq : QuestionRequest :=
  { question := "How many?", detections := [exCat], image_base64 := none }

theorem charListLeb_total (xs ys : List Char) :
    charListLeb xs ys = true ∨ charListLeb ys xs = true := by
  induction xs generalizing ys with
  | nil => exact Or.inl rfl
  | cons c cs ih =>
    cases ys with
    | nil => exact Or.inr rfl
    | cons d ds =>
      simp only [charListLeb]
      rcases ih ds with h | h <;> split_ifs <;> simp_all

theorem charListLeb_trans (xs ys zs : List Char)
    (h₁ : charListLeb xs ys = true) (h₂ : charListLeb ys zs = true) :
    charListLeb xs zs = true := by
  induction xs generalizing ys zs with
  | nil => rfl
  | cons c cs ih =>
    cases ys with
    | nil => simp [charListLeb] at h₁
    | cons d ds =>
      cases zs with
      | nil => simp [charListLeb] at h₂
      | cons e es =>
        simp only [charListLeb] at h₁ h₂ ⊢
        split_ifs at h₁ h₂ ⊢ <;> try rfl
        all_goals try omega
        all_goals try simp_all
        · exact ih ds es h₁ h₂

theorem keyLe_total : ∀ a b : String × ℕ, keyLe a b ∨ keyLe b a :=
  fun a b => charListLeb_total a.1.data b.1.data

theorem keyLe_trans : ∀ a b c : String × ℕ, keyLe a b → keyLe b c → keyLe a c :=
  fun a b c h h' => charListLeb_trans a.1.data b.1.data c.1.data h h'

theorem sortPairs_sorted (l : List (String × ℕ)) :
    List.Sorted keyLe (sortPairs l) := by
  haveI : IsTotal (String × ℕ) keyLe := ⟨fun a b => keyLe_total a b⟩
  haveI : IsTrans (String × ℕ) keyLe := ⟨fun a b c => keyLe_trans a b c⟩
  exact List.sorted_insertionSort keyLe l

theorem sortPairs_perm (l : List (String × ℕ)) :
    List.Perm (sortPairs l) l :=
  List.perm_insertionSort keyLe l

/-- C1: whenever the external generate_content call raises, the Q&A
adapter answer_question returns normally with the deterministic
fallback string: the fixed message for an empty detection list, and the
service-unavailable message followed by the per-class count breakdown
otherwise; the ask handler consequently returns a successful response,
never an error. -/
theorem qa_fallback_on_generate_failure
    (question : String) (detections : List Detection) (img : Option String)
    (gen : String → Except String String) (elapsed : ℚ) (e : String)
    (hgen : ∀ p, gen p = Except.error e) :
    answerQuestion question detections img gen elapsed
        = Except.ok (createFallbackResponse detections e, elapsed)
      ∧ (detections = [] →
          createFallbackResponse detections e =
            "No objects detected and AI service unavailable.")
      ∧ (detections ≠ [] →
          createFallbackResponse detections e =
            "AI service temporarily unavailable. Detected "
            ++ toString detections.length ++ " objects:\n"
            ++ String.intercalate "\n" (fallbackSummaryLines detections))
      ∧ (∃ a, ask_question { question := question, detections := detections, image_base64 := img } gen elapsed
          = Except.ok { answer := a, processing_time := pyRound elapsed 3 }) := by
  refine ⟨by simp [answerQuestion, hgen], ?_, ?_, ?_⟩
  · intro h
    subst h
    rfl
  · intro h
    cases detections with
    | nil => exact absurd rfl h
    | cons d t => simp [createFallbackResponse]
  · exact ⟨createFallbackResponse detections e,
      by simp [ask_question, answerQuestion, hgen]⟩

theorem qa_fallback_witness :
    (∀ p, wGen p = Except.error "boom")
    ∧ (answerQuestion "How many?" [exCat] none wGen (1 / 2)
          = Except.ok (createFallbackResponse [exCat] "boom", 1 / 2)
        ∧ ([exCat] = [] →
            createFallbackResponse [exCat] "boom" =
              "No objects detected and AI service unavailable.")
        ∧ ([exCat] ≠ [] →
            createFallbackResponse [exCat] "boom" =
              "AI service temporarily unavailable. Detected "
              ++ toString [exCat].length ++ " objects:\n"
              ++ String.intercalate "\n" (fallbackSummaryLines [exCat]))
        ∧ (∃ a, ask_question { question := "How many?", detections := [exCat], image_base64 := none } wGen (1 / 2)
            = Except.ok { answer := a, processing_time := pyRound (1 / 2) 3 })) :=
  ⟨fun _ => rfl,
   qa_fallback_on_generate_failure "How many?" [exCat] none wGen (1 / 2) "boom"
     (fun _ => rfl)⟩

/-- C5 counterexample: on a one-detection list the breakdown line in
the fallback string differs from the breakdown line in the context
summary, so the two breakdowns do not share the same line format. -/
theorem breakdown_line_format_counterexample :
    fallbackSummaryLines [exCat] ≠ summaryLines [exCat] := by
  decide

/-- C5 amended: for every detection list the fallback breakdown and the
context-summary breakdown are built from the same sorted per-class
count list — same classes, same counts, same alphabetical order — and
differ only in the leading bullet of each line: the summary lines start
with a dash, the fallback lines with the mojibake bullet sequence. -/
theorem breakdown_same_data_different_bullet (detections : List Detection) :
    ∃ rests : List String,
      fallbackSummaryLines detections = rests.map (fun r => "â€¢ " ++ r)
      ∧ summaryLines detections = rests.map (fun r => "- " ++ r) := by
  refine ⟨(sortPairs (countByClass detections)).map countLineBody, ?_, ?_⟩ <;>
    simp only [fallbackSummaryLines, summaryLines, List.map_map] <;> rfl

theorem runCalls_cached (step : LazyState → ℕ × LazyState)
    (hstep : ∀ d c, step { cache := some d, constructed := c }
      = (d, { cache := some d, constructed := c })) :
    ∀ (n d c : ℕ), runCalls step n { cache := some d, constructed := c }
      = (List.replicate n d, { cache := some d, constructed := c }) := by
  intro n
  induction n with
  | zero => intro d c; rfl
  | succ m ih => intro d c; simp [runCalls, hstep, ih, List.replicate_succ]

/-- C6: both module-level handles are constructed lazily at most once:
before any call nothing is constructed, and over any sequence of calls
the first call constructs the single instance and every call returns
that same instance, the construction counter staying at one. -/
theorem lazy_singleton_handles (n : ℕ) :
    (runCalls get_detector (n + 1) lazyInit).1 = List.replicate (n + 1) 0
    ∧ ((runCalls get_detector (n + 1) lazyInit).2).constructed = 1
    ∧ ((runCalls get_detector 0 lazyInit).2).constructed = 0
    ∧ (runCalls get_gemini_service (n + 1) lazyInit).1 = List.replicate (n + 1) 0
    ∧ ((runCalls get_gemini_service (n + 1) lazyInit).2).constructed = 1
    ∧ ((runCalls get_gemini_service 0 lazyInit).2).constructed = 0 := by
  have hd : ∀ d c, get_detector { cache := some d, constructed := c }
      = (d, { cache := some d, constructed := c }) := fun _ _ => rfl
  have hg : ∀ d c, get_gemini_service { cache := some d, constructed := c }
      = (d, { cache := some d, constructed := c }) := fun _ _ => rfl
  have h1 : runCalls get_detector (n + 1) lazyInit
      = (List.replicate (n + 1) 0, { cache := some 0, constructed := 1 }) := by
    simp [runCalls, lazyInit, get_detector, runCalls_cached _ hd, List.replicate_succ]
  have h2 : runCalls get_gemini_service (n + 1) lazyInit
      = (List.replicate (n + 1) 0, { cache := some 0, constructed := 1 }) := by
    simp [runCalls, lazyInit, get_gemini_service, runCalls_cached _ hg, List.replicate_succ]
  exact ⟨by simp [h1], by simp [h1], rfl, by simp [h2], by simp [h2], rfl⟩

/-- C7: a detect request whose declared content type does not begin
with image/ is rejected with a 400 and the detail File must be an
image, with an empty side-effect trace: the file is not read and the
detector is not invoked, whatever the detector would have returned. -/
theorem non_image_upload_rejected (content_type : String) (file_bytes : List ℕ)
    (detector : List ℕ → Except String (String × List Detection × ℚ))
    (h : strStartsWith content_type "image/" = false) :
    detect_objects content_type file_bytes detector
      = (Except.error (400, "File must be an image"), []) := by
  simp [detect_objects, h]

theorem non_image_upload_rejected_witness :
    (strStartsWith "text/plain" "image/" = false)
    ∧ detect_objects "text/plain" [] wDetectorOk
        = (Except.error (400, "File must be an image"), []) :=
  ⟨by decide, non_image_upload_rejected "text/plain" [] wDetectorOk (by decide)⟩

/-- C8: on the success paths of the detect and ask handlers the
processing_time field is the raw elapsed-seconds measurement rounded to
3 decimal places, hence an integer multiple of one thousandth. -/
theorem processing_time_three_decimals (content_type : String)
    (file_bytes : List ℕ)
    (detector : List ℕ → Except String (String × List Detection × ℚ))
    (annotated : String) (dets : List Detection) (t : ℚ)
    (req : QuestionRequest) (gen : String → Except String String) (elapsed : ℚ)
    (h₁ : strStartsWith content_type "image/" = true)
    (h₂ : detector file_bytes = Except.ok (annotated, dets, t)) :
    (detect_objects content_type file_bytes detector).1
        = Except.ok { annotated_image := annotated, detections := dets
                      processing_time := pyRound t 3 }
      ∧ (∃ a, ask_question req gen elapsed
          = Except.ok { answer := a, processing_time := pyRound elapsed 3 })
      ∧ (∃ k : ℤ, pyRound t 3 = (k : ℚ) / 1000)
      ∧ (∃ k : ℤ, pyRound elapsed 3 = (k : ℚ) / 1000) := by
  refine ⟨by simp [detect_objects, h₁, h₂], ?_,
    ⟨rne (t * 10 ^ 3), by norm_num [pyRound]⟩,
    ⟨rne (elapsed * 10 ^ 3), by norm_num [pyRound]⟩⟩
  cases hgp : gen (buildPrompt (createSystemInstruction req.detections) req.question) with
  | ok text => exact ⟨text, by simp [ask_question, answerQuestion, hgp]⟩
  | error e => exact ⟨createFallbackResponse req.detections e,
      by simp [ask_question, answerQuestion, hgp]⟩

theorem processing_time_three_decimals_witness :
    (strStartsWith "image/png" "image/" = true
      ∧ wDetectorOk [] = Except.ok ("annotated", [exCat], 1 / 2))
    ∧ ((detect_objects "image/png" [] wDetectorOk).1
          = Except.ok { annotated_image := "annotated", detections := [exCat]
                        processing_time := pyRound (1 / 2) 3 }
        ∧ (∃ a, ask_question wReq wGen (1 / 2)
            = Except.ok { answer := a, processing_time := pyRound (1 / 2) 3 })
        ∧ (∃ k : ℤ, pyRound (1 / 2) 3 = (k : ℚ) / 1000)
        ∧ (∃ k : ℤ, pyRound (1 / 2) 3 = (k : ℚ) / 1000)) :=
  ⟨⟨by decide, rfl⟩,
   processing_time_three_decimals "image/png" [] wDetectorOk "annotated" [exCat]
     (1 / 2) wReq wGen (1 / 2) (by decide) rfl⟩

theorem username_lookup_some_iff (db : List StoredUser) (un : String) :
    (get_user_by_username db un).isSome = true ↔ ∃ u ∈ db, u.username = un := by
  simp [get_user_by_username, List.find?_isSome]

theorem email_lookup_some_iff (db : List StoredUser) (em : String) :
    (get_user_by_email db em).isSome = true ↔ ∃ u ∈ db, u.email = em := by
  simp [get_user_by_email, List.find?_isSome]

/-- C2: a signup whose username or email is already stored answers 400
with the message naming the colliding field, and leaves the store
untouched, so its cardinality is unchanged. -/
theorem signup_conflict_rejected (hash : String → String)
    (db : List StoredUser) (next_id : ℕ) (uc : UserCreate)
    (hcol : (∃ u ∈ db, u.username = uc.username) ∨ (∃ u ∈ db, u.email = uc.email)) :
    (∃ detail, (signup hash db next_id uc).1 = SignupResult.httpError 400 detail
        ∧ ((∃ u ∈ db, u.username = uc.username) → detail = "Username already registered")
        ∧ ((¬ ∃ u ∈ db, u.username = uc.username) → detail = "Email already registered"))
    ∧ (signup hash db next_id uc).2 = db
    ∧ ((signup hash db next_id uc).2).length = db.length := by
  cases h₁ : get_user_by_username db uc.username with
  | some u =>
    have hex : ∃ u ∈ db, u.username = uc.username :=
      (username_lookup_some_iff db uc.username).mp (by simp [h₁])
    exact ⟨⟨"Username already registered", by simp [signup, h₁],
      fun _ => rfl, fun hn => absurd hex hn⟩, by simp [signup, h₁], by simp [signup, h₁]⟩
  | none =>
    have hnex : ¬ ∃ u ∈ db, u.username = uc.username := by
      intro hx
      have := (username_lookup_some_iff db uc.username).mpr hx
      simp [h₁] at this
    have hem : ∃ u ∈ db, u.email = uc.email := by
      rcases hcol with h | h
      · exact absurd h hnex
      · exact h
    cases h₂ : get_user_by_email db uc.email with
    | none =>
      exfalso
      have := (email_lookup_some_iff db uc.email).mpr hem
      simp [h₂] at this
    | some u =>
      exact ⟨⟨"Email already registered", by simp [signup, h₁, h₂],
        fun hx => absurd hx hnex, fun _ => rfl⟩,
        by simp [signup, h₁, h₂], by simp [signup, h₁, h₂]⟩

theorem signup_conflict_rejected_witness :
    ((∃ u ∈ wDb, u.username = wUcUser.username) ∨ (∃ u ∈ wDb, u.email = wUcUser.email))
    ∧ ((∃ detail, (signup wHash wDb 2 wUcUser).1 = SignupResult.httpError 400 detail
          ∧ ((∃ u ∈ wDb, u.username = wUcUser.username) → detail = "Username already registered")
          ∧ ((¬ ∃ u ∈ wDb, u.username = wUcUser.username) → detail = "Email already registered"))
       ∧ (signup wHash wDb 2 wUcUser).2 = wDb
       ∧ ((signup wHash wDb 2 wUcUser).2).length = wDb.length) :=
  ⟨Or.inl (by decide),
   signup_conflict_rejected wHash wDb 2 wUcUser (Or.inl (by decide))⟩

/-- C9: when both the username and the email of a signup are already
stored, the username check runs first, so the 400 detail is the
username-collision message. -/
theorem signup_username_check_first (hash : String → String)
    (db : List StoredUser) (next_id : ℕ) (uc : UserCreate)
    (h₁ : ∃ u ∈ db, u.username = uc.username)
    (_h₂ : ∃ u ∈ db, u.email = uc.email) :
    (signup hash db next_id uc).1
      = SignupResult.httpError 400 "Username already registered" := by
  cases h : get_user_by_username db uc.username with
  | some u => simp [signup, h]
  | none =>
    exfalso
    have := (username_lookup_some_iff db uc.username).mpr h₁
    simp [h] at this

theorem signup_username_check_first_witness :
    ((∃ u ∈ wDb, u.username = wUcBoth.username) ∧ (∃ u ∈ wDb, u.email = wUcBoth.email))
    ∧ (signup wHash wDb 2 wUcBoth).1
        = SignupResult.httpError 400 "Username already registered" :=
  ⟨⟨by decide, by decide⟩,
   signup_username_check_first wHash wDb 2 wUcBoth (by decide) (by decide)⟩

theorem extract_foldl (names : ℕ → String) :
    ∀ (results : List (List RawBox)) (acc : List Detection),
      List.foldl (fun acc r => acc ++ r.map (extractOne names)) acc results
        = acc ++ results.flatten.map (extractOne names) := by
  intro results
  induction results with
  | nil => intro acc; simp
  | cons r rest ih =>
    intro acc
    simp [List.foldl_cons, ih, List.map_append, List.append_assoc]

/-- C3: the detection adapter maps each raw box, in order, to a
detection whose confidence is the raw confidence rounded to 3 decimal
places and whose four coordinates are the raw coordinates rounded to 2
decimal places; the rounding is a deterministic function of the raw
floats and every returned value lies on the corresponding decimal
grid. -/
theorem extraction_rounds_deterministically (names : ℕ → String)
    (results : List (List RawBox)) :
    extract_detections names results = results.flatten.map (extractOne names)
    ∧ (∀ b : RawBox, extractOne names b =
        { class_name := names b.cls, confidence := pyRound b.conf 3
          bounding_box := { x1 := pyRound b.x1 2, y1 := pyRound b.y1 2
                            x2 := pyRound b.x2 2, y2 := pyRound b.y2 2 } })
    ∧ (∀ results₂, results = results₂ →
        extract_detections names results = extract_detections names results₂)
    ∧ (∀ d ∈ extract_detections names results,
        (∃ k : ℤ, d.confidence = (k : ℚ) / 1000)
        ∧ (∃ k : ℤ, d.bounding_box.x1 = (k : ℚ) / 100)
        ∧ (∃ k : ℤ, d.bounding_box.y1 = (k : ℚ) / 100)
        ∧ (∃ k : ℤ, d.bounding_box.x2 = (k : ℚ) / 100)
        ∧ (∃ k : ℤ, d.bounding_box.y2 = (k : ℚ) / 100)) := by
  have heq : extract_detections names results
      = results.flatten.map (extractOne names) := by
    simpa using extract_foldl names results []
  refine ⟨heq, fun b => rfl, fun r₂ hr => by rw [hr], ?_⟩
  intro d hd
  rw [heq] at hd
  rcases List.mem_map.mp hd with ⟨b, _hb, rfl⟩
  exact ⟨⟨rne (b.conf * 10 ^ 3), by norm_num [extractOne, pyRound]⟩,
    ⟨rne (b.x1 * 10 ^ 2), by norm_num [extractOne, pyRound]⟩,
    ⟨rne (b.y1 * 10 ^ 2), by norm_num [extractOne, pyRound]⟩,
    ⟨rne (b.x2 * 10 ^ 2), by norm_num [extractOne, pyRound]⟩,
    ⟨rne (b.y2 * 10 ^ 2), by norm_num [extractOne, pyRound]⟩⟩

theorem extraction_rounding_witness :
    wExtracted ∈ extract_detections wNames [[wBox]]
    ∧ (∃ k : ℤ, wExtracted.confidence = (k : ℚ) / 1000) :=
  ⟨show wExtracted ∈ [wExtracted] from List.mem_singleton_self wExtracted,
   ((extraction_rounds_deterministically wNames [[wBox]]).2.2.2 wExtracted
     (show wExtracted ∈ [wExtracted] from List.mem_singleton_self wExtracted)).1⟩

theorem bumpClass_sum (l : List (String × ℕ)) (c : String) :
    sumSnd (bumpClass l c) = sumSnd l + 1 := by
  induction l with
  | nil => rfl
  | cons p rest ih =>
    obtain ⟨k, v⟩ := p
    by_cases h : k = c
    · simp [bumpClass, h, sumSnd]
      omega
    · simp [bumpClass, h, sumSnd] at ih ⊢
      omega

theorem bumpClass_keys_mem (l : List (String × ℕ)) (c k : String) :
    k ∈ keysOf (bumpClass l c) ↔ k ∈ keysOf l ∨ k = c := by
  induction l with
  | nil => simp [bumpClass, keysOf]
  | cons p rest ih =>
    obtain ⟨k', v⟩ := p
    by_cases h : k' = c
    · subst h
      simp [bumpClass, keysOf]
      tauto
    · simp [bumpClass, h, keysOf] at ih ⊢
      tauto

theorem keysOf_cons (p : String × ℕ) (l : List (String × ℕ)) :
    keysOf (p :: l) = p.1 :: keysOf l := rfl

theorem bumpClass_keys_of_mem (l : List (String × ℕ)) (c : String)
    (h : c ∈ keysOf l) : keysOf (bumpClass l c) = keysOf l := by
  induction l with
  | nil => simp [keysOf] at h
  | cons p rest ih =>
    obtain ⟨k', v⟩ := p
    by_cases hk : k' = c
    · simp [bumpClass, hk, keysOf]
    · have hc : c ∈ keysOf rest := by
        rw [keysOf_cons] at h
        rcases List.mem_cons.mp h with h' | h'
        · exact absurd h'.symm hk
        · exact h'
      rw [show bumpClass ((k', v) :: rest) c = (k', v) :: bumpClass rest c from
        by simp [bumpClass, hk]]
      rw [keysOf_cons, keysOf_cons, ih hc]

theorem bumpClass_keys_of_not_mem (l : List (String × ℕ)) (c : String)
    (h : c ∉ keysOf l) : keysOf (bumpClass l c) = keysOf l ++ [c] := by
  induction l with
  | nil => rfl
  | cons p rest ih =>
    obtain ⟨k', v⟩ := p
    have hk : k' ≠ c := by
      intro hkc
      exact h (by rw [keysOf_cons, hkc]; exact List.mem_cons_self c (keysOf rest))
    have hc : c ∉ keysOf rest := by
      intro hcr
      exact h (by rw [keysOf_cons]; exact List.mem_cons_of_mem _ hcr)
    rw [show bumpClass ((k', v) :: rest) c = (k', v) :: bumpClass rest c from
      by simp [bumpClass, hk]]
    rw [keysOf_cons, keysOf_cons, ih hc]
    rfl

theorem bumpClass_keys_nodup (l : List (String × ℕ)) (c : String)
    (h : (keysOf l).Nodup) : (keysOf (bumpClass l c)).Nodup := by
  by_cases hc : c ∈ keysOf l
  · rw [bumpClass_keys_of_mem l c hc]
    exact h
  · rw [bumpClass_keys_of_not_mem l c hc]
    refine List.Nodup.append h (List.nodup_singleton c) ?_
    intro a ha hb
    rw [List.mem_singleton] at hb
    subst hb
    exact hc ha

theorem countFold_sum (ds : List Detection) :
    ∀ acc, sumSnd (List.foldl (fun acc d => bumpClass acc d.class_name) acc ds)
      = sumSnd acc + ds.length := by
  induction ds with
  | nil => intro acc; simp
  | cons d rest ih =>
    intro acc
    simp only [List.foldl_cons, List.length_cons]
    rw [ih, bumpClass_sum]
    omega

theorem countFold_keys_mem (ds : List Detection) :
    ∀ acc (k : String),
      k ∈ keysOf (List.foldl (fun acc d => bumpClass acc d.class_name) acc ds)
        ↔ k ∈ keysOf acc ∨ ∃ d ∈ ds, d.class_name = k := by
  induction ds with
  | nil => intro acc k; simp
  | cons d rest ih =>
    intro acc k
    simp only [List.foldl_cons]
    rw [ih, bumpClass_keys_mem, List.exists_mem_cons_iff]
    constructor
    · rintro ((h | h) | h)
      · exact Or.inl h
      · exact Or.inr (Or.inl h.symm)
      · exact Or.inr (Or.inr h)
    · rintro (h | h | h)
      · exact Or.inl (Or.inl h)
      · exact Or.inl (Or.inr h.symm)
      · exact Or.inr h

theorem countFold_nodup (ds : List Detection) :
    ∀ acc, (keysOf acc).Nodup →
      (keysOf (List.foldl (fun acc d => bumpClass acc d.class_name) acc ds)).Nodup := by
  induction ds with
  | nil => intro acc h; simpa using h
  | cons d rest ih =>
    intro acc h
    simp only [List.foldl_cons]
    exact ih _ (bumpClass_keys_nodup _ _ h)

theorem countByClass_sum (ds : List Detection) :
    sumSnd (countByClass ds) = ds.length := by
  simpa [countByClass, sumSnd] using countFold_sum ds []

theorem countByClass_keys_mem (ds : List Detection) (k : String) :
    k ∈ keysOf (countByClass ds) ↔ ∃ d ∈ ds, d.class_name = k := by
  simpa [countByClass, keysOf] using countFold_keys_mem ds [] k

theorem countByClass_nodup (ds : List Detection) :
    (keysOf (countByClass ds)).Nodup :=
  countFold_nodup ds [] (by simp [keysOf])

/-- C10: the total count shown by the context summary is the list
length, which equals the sum of the per-class counts; every class of
the breakdown (also after sorting) comes from some detection; and every
detection's class appears exactly once among the breakdown keys. -/
theorem count_breakdown_invariants (ds : List Detection) :
    sumSnd (countByClass ds) = ds.length
    ∧ (∀ p ∈ countByClass ds, ∃ d ∈ ds, d.class_name = p.1)
    ∧ (∀ d ∈ ds, List.count d.class_name (keysOf (countByClass ds)) = 1)
    ∧ (keysOf (countByClass ds)).Nodup
    ∧ sumSnd (sortPairs (countByClass ds)) = ds.length
    ∧ (∀ p ∈ sortPairs (countByClass ds), ∃ d ∈ ds, d.class_name = p.1)
    ∧ (∀ d ∈ ds, List.count d.class_name (keysOf (sortPairs (countByClass ds))) = 1)
    ∧ (ds ≠ [] →
        ("Total objects detected: " ++ toString ds.length ++ "\n") ∈ instructionParts ds) := by
  have hperm : List.Perm (sortPairs (countByClass ds)) (countByClass ds) :=
    sortPairs_perm (countByClass ds)
  have hmem : ∀ p ∈ countByClass ds, ∃ d ∈ ds, d.class_name = p.1 := by
    intro p hp
    exact (countByClass_keys_mem ds p.1).mp (List.mem_map_of_mem Prod.fst hp)
  have hcount : ∀ d ∈ ds, List.count d.class_name (keysOf (countByClass ds)) = 1 := by
    intro d hd
    exact List.count_eq_one_of_mem (countByClass_nodup ds)
      ((countByClass_keys_mem ds d.class_name).mpr ⟨d, hd, rfl⟩)
  refine ⟨countByClass_sum ds, hmem, hcount, countByClass_nodup ds, ?_, ?_, ?_, ?_⟩
  · have h5 : ((sortPairs (countByClass ds)).map Prod.snd).sum
        = ((countByClass ds).map Prod.snd).sum := (hperm.map Prod.snd).sum_eq
    have h6 := countByClass_sum ds
    simp only [sumSnd] at h6 ⊢
    exact h5.trans h6
  · intro p hp
    exact hmem p (hperm.subset hp)
  · intro d hd
    have h7 : List.count d.class_name ((sortPairs (countByClass ds)).map Prod.fst)
        = List.count d.class_name ((countByClass ds).map Prod.fst) :=
      (hperm.map Prod.fst).count_eq d.class_name
    have h8 := hcount d hd
    simp only [keysOf] at h8 ⊢
    exact h7.trans h8
  · intro _
    simp [instructionParts]

/-- C4: for the empty detection list the context summary is the fixed
sentence; for a non-empty list it is the newline join of a header with
the total detection count, the per-class breakdown lines over the
alphabetically sorted count list, and the numbered per-detection
listing whose lines carry the one-based index, the class name, the
confidence formatted to 3 decimals and the box coordinates formatted to
1 decimal. -/
theorem system_instruction_shape (ds : List Detection) :
    createSystemInstruction [] = "No objects were detected in the image."
    ∧ (ds ≠ [] → createSystemInstruction ds =
        String.intercalate "\n"
          (["Detection Results:",
            "Total objects detected: " ++ toString ds.length ++ "\n",
            "Object Summary:"]
           ++ (sortPairs (countByClass ds)).map classCountLine
           ++ ["\nDetailed Detection Data:"]
           ++ ds.enum.map (fun p => formatDetection (p.1 + 1) p.2)))
    ∧ List.Sorted keyLe (sortPairs (countByClass ds))
    ∧ (∀ index d, formatDetection index d =
        toString index ++ ". " ++ d.class_name
        ++ " (confidence: " ++ formatFixed d.confidence 3
        ++ ", location: x1=" ++ formatFixed d.bounding_box.x1 1
        ++ ", y1=" ++ formatFixed d.bounding_box.y1 1
        ++ ", x2=" ++ formatFixed d.bounding_box.x2 1
        ++ ", y2=" ++ formatFixed d.bounding_box.y2 1 ++ ")") := by
  refine ⟨rfl, ?_, sortPairs_sorted (countByClass ds), fun index d => rfl⟩
  intro h
  cases ds with
  | nil => exact absurd rfl h
  | cons d t => rfl

theorem system_instruction_shape_witness :
    ([exCat] ≠ [])
    ∧ createSystemInstruction [exCat]
        = String.intercalate "\n"
            (["Detection Results:",
              "Total objects detected: " ++ toString [exCat].length ++ "\n",
              "Object Summary:"]
             ++ (sortPairs (countByClass [exCat])).map classCountLine
             ++ ["\nDetailed Detection Data:"]
             ++ [exCat].enum.map (fun p => formatDetection (p.1 + 1) p.2)) :=
  ⟨by simp, (system_instruction_shape [exCat]).2.1 (by simp)⟩

theorem count_breakdown_invariants_witness :
    (("cat", 1) ∈ countByClass [exCat])
    ∧ (∃ d ∈ [exCat], d.class_name = ("cat", 1).1) :=
  ⟨by decide, (count_breakdown_invariants [exCat]).2.1 ("cat", 1) (by decide)⟩

end ObjDet
